import Mathlib

/-!
Shallow embedding of `src/app.py` (a single-file local chat application).

The file models, faithfully to the Python source:
  * the string primitives the source relies on (`str.lower`, `str.strip`,
    substring containment `in`, slicing `[:77]`, `endswith`),
  * the rule-based reply generator `ChatApp.generate_bot_reply`,
  * the session state (chat display widget content, the `chat_history.txt`
    backing store, the input variable, the bot-enabled flag) and the
    operations `append_text`, `append_system`, `on_send`, `clear_display`,
    `load_history`, plus the startup seeding block of `__init__` and the
    firing of the deferred bot-reply callback scheduled via `root.after`.

Python strings are modelled as Lean `String` (sequences of code points);
`len` and `[:n]` operate on code points in both. `str.lower` is modelled as
per-character ASCII lowercasing (all rule tokens in the source are ASCII).
File contents are modelled as `Option String` (`none` = the file does not
exist; opening in append mode creates it). An I/O failure on the append-mode
write is modelled by the `storeErr` field: `some e` means the write raises an
exception whose message is `e`, which `append_text` catches.
-/

namespace ChatApp

/-- Python whitespace characters stripped by `str.strip()` (ASCII range). -/
def isPySpace (c : Char) : Bool :=
  c = ' ' || c = '\t' || c = '\n' || c = '\r' || c = '\x0b' || c = '\x0c'

/-- `s.strip()`: drop leading and trailing whitespace. -/
def pyStrip (s : String) : String :=
  ⟨((s.data.dropWhile isPySpace).reverse.dropWhile isPySpace).reverse⟩

/-- `needle in hay` on code-point lists: `needle` occurs contiguously in `hay`. -/
def listIn (needle : List Char) : List Char → Bool
  | [] => needle.isEmpty
  | c :: rest => needle.isPrefixOf (c :: rest) || listIn needle rest

/-- Python `needle in hay` substring test. -/
def pyIn (needle hay : String) : Bool :=
  listIn needle.data hay.data

/-- `s.lower()`, modelled as per-character ASCII lowercasing. -/
def pyLower (s : String) : String :=
  ⟨s.data.map Char.toLower⟩

/-- `s[:n]`: the first `n` code points of `s`. -/
def pyTake (s : String) (n : Nat) : String :=
  ⟨s.data.take n⟩

/-- `s.endswith(t)`. -/
def pyEndsWith (s t : String) : Bool :=
  t.data.reverse.isPrefixOf s.data.reverse

/-- Rule 1 condition: `any(g in msg for g in ["hello", "hi", "salom"])`. -/
def isGreeting (msg : String) : Bool :=
  ["hello", "hi", "salom"].any fun g => pyIn g msg

/-- Rule 2 condition: `"ism" in msg or "who are you" in msg.lower()`. -/
def isIdentity (msg : String) : Bool :=
  pyIn "ism" msg || pyIn "who are you" (pyLower msg)

/-- Rule 3 condition: `"tayyor" in msg or "ready" in msg`. -/
def isReady (msg : String) : Bool :=
  pyIn "tayyor" msg || pyIn "ready" msg

/-- Rule 4 condition: `"rahmat" in msg or "thanks" in msg`. -/
def isThanks (msg : String) : Bool :=
  pyIn "rahmat" msg || pyIn "thanks" msg

/-- Rule 5 condition: `msg.endswith("?")`. -/
def isQuestion (msg : String) : Bool :=
  pyEndsWith msg "?"

/-- Fixed greeting reply (rule 1). -/
def greetingReply : String := "Salom! Qanday yordam bera olaman?"

/-- Fixed self-description reply (rule 2). -/
def identityReply : String := "Men oddiy o\x27quvchi botman."

/-- Fixed affirmation reply (rule 3). -/
def readyReply : String := "Ha, tayyorman."

/-- Fixed acknowledgement reply (rule 4). -/
def thanksReply : String := "Marhamat!"

/-- Fixed uncertainty reply (rule 5). -/
def questionReply : String :=
  "Bu yaxshi savol — men hali buni o\x27rganmayapman, lekin sinab ko\x27rdim."

/-- Rule 6 (default): `"Siz aytdingiz: " + (message if len(message) <= 80 else message[:77] + "...")`. -/
def echoReply (message : String) : String :=
  "Siz aytdingiz: " ++ (if message.length ≤ 80 then message else pyTake message 77 ++ "...")

/-- `ChatApp.generate_bot_reply` (src/app.py lines 113-127): ordered
rule-based reply on the lower-cased message, first match wins. -/
def generate_bot_reply (message : String) : String :=
  let msg := pyLower message
  if isGreeting msg then greetingReply
  else if isIdentity msg then identityReply
  else if isReady msg then readyReply
  else if isThanks msg then thanksReply
  else if isQuestion msg then questionReply
  else echoReply message

/-- The reply rules as an ordered table of (condition on the lower-cased
message, reply from the original message) pairs, in source order:
greeting, identity, readiness, gratitude, question mark, default echo. -/
def ruleTable : List ((String → Bool) × (String → String)) :=
  [ (isGreeting, fun _ => greetingReply)
  , (isIdentity, fun _ => identityReply)
  , (isReady, fun _ => readyReply)
  , (isThanks, fun _ => thanksReply)
  , (isQuestion, fun _ => questionReply)
  , (fun _ => true, echoReply) ]

/-- First-match evaluation of a rule table: conditions are tested on the
lower-cased message, the reply of the winning rule is built from the original. -/
def applyRules : List ((String → Bool) × (String → String)) → String → String
  | [], _ => ""
  | (p, r) :: rest, message =>
      if p (pyLower message) then r message else applyRules rest message

/-- Session state: the text of the chat display widget, the contents of
`chat_history.txt` (`none` = file absent), the variable of the input entry, the
bot-enabled checkbox, and the modelled outcome of append-mode writes
(`none` = writes succeed; `some e` = the write raises with message `e`). -/
structure AppState where
  display : String
  store : Option String
  inputVar : String
  botEnabled : Bool
  storeErr : Option String
deriving DecidableEq, Repr

/-- `open(HISTORY_FILE, "a"); f.write(text + "\n")` (src/app.py lines 85-86):
append mode creates the file when absent and appends `text + "\n"`. -/
def storeWrite (storeErr : Option String) (store : Option String) (text : String) :
    Except String (Option String) :=
  match storeErr with
  | none => .ok (some (store.getD "" ++ text ++ "\n"))
  | some e => .error e

/-- `ChatApp.append_text` (src/app.py lines 71-91): insert `text + "\n"` into
the display (the three `tag` branches perform the identical insert); when
`save`, append `text + "\n"` to `HISTORY_FILE`, and on an exception show a
non-blocking `[Save error: e]` line in the display instead. -/
def append_text (st : AppState) (text : String) (_tag : Option String) (save : Bool) :
    AppState :=
  -- the source branches on `tag` (user / bot / else) but every branch
  -- performs the identical `insert(tk.END, text + "\n")`
  let st1 := { st with display := st.display ++ text ++ "\n" }
  if save then
    match storeWrite st.storeErr st.store text with
    | .ok s => { st1 with store := s }
    | .error e => { st1 with display := st1.display ++ "[Save error: " ++ e ++ "]\n" }
  else st1

/-- The f-string `f"[{ts}] SYSTEM: {text}"` of `append_system`. -/
def system_line (ts text : String) : String :=
  "[" ++ ts ++ "] SYSTEM: " ++ text

/-- `ChatApp.append_system` (src/app.py lines 93-95): prepend a timestamped
`SYSTEM:` marker and append with the defaults (`save=True`). -/
def append_system (st : AppState) (ts text : String) : AppState :=
  append_text st (system_line ts text) (some "system") true

/-- `ChatApp.on_send` (src/app.py lines 97-111): strip the input; if empty,
return with no effect. Otherwise append and persist the `You (ts): message`
line, clear the input, and — when the bot is enabled — compute the reply and
schedule the already-formatted `Bot (ts): reply` line as a deferred append
(`root.after(250, lambda: self.append_text(bot_line, tag="bot"))`). The
second component is the pending deferred bot line, `none` when nothing was
scheduled. -/
def on_send (st : AppState) (ts : String) : AppState × Option String :=
  let message := pyStrip st.inputVar
  if message = "" then (st, none)
  else
    let user_line := "You (" ++ ts ++ "): " ++ message
    let st1 := append_text st user_line (some "user") true
    let st2 := { st1 with inputVar := "" }
    if st.botEnabled then
      let reply := generate_bot_reply message
      let bot_line := "Bot (" ++ ts ++ "): " ++ reply
      (st2, some bot_line)
    else (st2, none)

/-- The body of the lambda scheduled by `root.after` in `on_send`
(src/app.py line 111): `self.append_text(bot_line, tag="bot")`, with the
default `save=True`. It performs no liveness or cleared-display check. -/
def fire_deferred (st : AppState) (bot_line : String) : AppState :=
  append_text st bot_line (some "bot") true

/-- `ChatApp.clear_display` (src/app.py lines 154-159): after a confirmed
dialog, delete the displayed contents, then `append_system("Display cleared.
Chat history file remains unchanged.")`. -/
def clear_display (st : AppState) (confirm : Bool) (ts : String) : AppState :=
  if confirm then
    let st1 := { st with display := "" }
    append_system st1 ts "Display cleared. Chat history file remains unchanged."
  else st

/-- `ChatApp.load_history` (src/app.py lines 141-152), on a successfully read
file: strip the content; if non-empty, `append_system` a notice naming the
basename of the file, then `append_text(content + "\n", tag=None, save=False)`. -/
def load_history (st : AppState) (content base ts : String) : AppState :=
  let c := pyStrip content
  if c = "" then st
  else
    let st1 := append_system st ts ("Loaded history from: " ++ base)
    append_text st1 (c ++ "\n") none false

/-- The startup seeding block of `ChatApp.__init__` (src/app.py lines 61-67),
on a successful read: if `HISTORY_FILE` exists and its stripped contents are
non-empty, `append_system("Loaded previous chat history.")` then
`append_text(data + "\n", tag=None, save=False)`. -/
def init_seed (st : AppState) (ts : String) : AppState :=
  match st.store with
  | none => st
  | some raw =>
    let data := pyStrip raw
    if data = "" then st
    else
      let st1 := append_system st ts "Loaded previous chat history."
      append_text st1 (data ++ "\n") none false

/-- Split file contents into lines the way the Python `str.splitlines` does for
newline-delimited text: a trailing newline produces no empty final line. -/
def splitLines : List Char → List (List Char)
  | [] => []
  | c :: cs =>
    if c = '\n' then [] :: splitLines cs
    else
      match splitLines cs with
      | [] => [[c]]
      | l :: ls => (c :: l) :: ls

/-! ### Helper lemmas -/

/-- Splitting off one newline-terminated, newline-free line. -/
theorem splitLines_append (cs rest : List Char) (h : '\n' ∉ cs) :
    splitLines (cs ++ '\n' :: rest) = cs :: splitLines rest := by
  induction cs with
  | nil => simp [splitLines]
  | cons c cs ih =>
    have hc : ¬ c = '\n' := fun hh => h (by simp [hh])
    have h2 : '\n' ∉ cs := fun hm => h (by simp [hm])
    simp only [List.cons_append, splitLines, hc, if_false, List.append_eq, ih h2]

/-- `str.strip()` of an all-whitespace string is empty. -/
theorem pyStrip_eq_empty {s : String} (h : s.data.all isPySpace = true) :
    pyStrip s = "" := by
  have h1 : s.data.dropWhile isPySpace = [] :=
    List.dropWhile_eq_nil_iff.mpr (by simpa [List.all_eq_true] using h)
  apply String.ext
  show ((s.data.dropWhile isPySpace).reverse.dropWhile isPySpace).reverse = "".data
  rw [h1]
  rfl

/-! ### Claim theorems -/

/-- C2 (counterexample): the input "ok bye" matches none of rules 1-5 and has
length at most 80, yet its reply is not the string `"You said: " + m` the claim
names — the source has the echo marker `"Siz aytdingiz: "`. -/
theorem echo_reply_counterexample :
    isGreeting (pyLower "ok bye") = false ∧ isIdentity (pyLower "ok bye") = false ∧
    isReady (pyLower "ok bye") = false ∧ isThanks (pyLower "ok bye") = false ∧
    isQuestion (pyLower "ok bye") = false ∧ ("ok bye" : String).length ≤ 80 ∧
    ¬ generate_bot_reply "ok bye" = "You said: " ++ "ok bye" := by decide

/-- C2 (amended): for every message matched by none of rules 1-5, the reply is
`"Siz aytdingiz: " ++ m` when `len(m) ≤ 80` (verbatim, including at exactly
80), and `"Siz aytdingiz: " ++ m[:77] ++ "..."` when `len(m) > 80`. -/
theorem echo_truncation (m : String)
    (hg : isGreeting (pyLower m) = false) (hi : isIdentity (pyLower m) = false)
    (hr : isReady (pyLower m) = false) (ht : isThanks (pyLower m) = false)
    (hq : isQuestion (pyLower m) = false) :
    (m.length ≤ 80 → generate_bot_reply m = "Siz aytdingiz: " ++ m) ∧
    (80 < m.length → generate_bot_reply m = "Siz aytdingiz: " ++ pyTake m 77 ++ "...") := by
  constructor
  · intro h
    simp [generate_bot_reply, echoReply, hg, hi, hr, ht, hq, h]
  · intro h
    have h2 : ¬ m.length ≤ 80 := by omega
    simp [generate_bot_reply, echoReply, hg, hi, hr, ht, hq, h2, String.append_assoc]

/-- C2 (witness): a 6-character message is echoed verbatim behind the prefix,
and an 85-character message is cut to its first 77 characters plus `"..."`. -/
theorem echo_truncation_witness :
    generate_bot_reply "ok bye" = "Siz aytdingiz: " ++ "ok bye" ∧
    generate_bot_reply ⟨List.replicate 85 'a'⟩ =
      "Siz aytdingiz: " ++ pyTake ⟨List.replicate 85 'a'⟩ 77 ++ "..." := by
  constructor
  · exact (echo_truncation "ok bye" (by decide) (by decide) (by decide) (by decide)
      (by decide)).1 (by decide)
  · exact (echo_truncation ⟨List.replicate 85 'a'⟩ (by decide) (by decide) (by decide)
      (by decide) (by decide)).2 (by decide)

/-- C3: when the input variable is empty or all whitespace, `on_send` returns
with the session state unchanged (display, store, input all untouched) and
schedules nothing — and it signals no error. -/
theorem on_send_empty_noop (st : AppState) (ts : String)
    (h : st.inputVar.data.all isPySpace = true) :
    on_send st ts = (st, none) := by
  have hs : pyStrip st.inputVar = "" := pyStrip_eq_empty h
  simp [on_send, hs]

/-- A session whose input entry holds only whitespace. -/
def stWS : AppState :=
  { display := "You (09:00): hi\n", store := some "You (09:00): hi\n",
    inputVar := "   ", botEnabled := true, storeErr := none }

/-- C3 (witness): sending with a whitespace-only input is a no-op. -/
theorem on_send_empty_noop_witness : on_send stWS "12:00" = (stWS, none) :=
  on_send_empty_noop stWS "12:00" (by decide)

/-- C4: the reply rules are evaluated in the fixed source order (greeting,
identity, readiness, gratitude, question mark, default echo) with first match
winning: whenever every rule before position `i` of `ruleTable` rejects the
lower-cased message and rule `i` accepts it, `generate_bot_reply` returns the
reply of rule `i`. -/
theorem rule_order_first_match (m : String) (i : Nat) (h6 : i < 6)
    (hprev : ∀ j, j < i →
      (ruleTable.getD j (fun _ => false, fun _ => "")).fst (pyLower m) = false)
    (hi : (ruleTable.getD i (fun _ => false, fun _ => "")).fst (pyLower m) = true) :
    generate_bot_reply m = (ruleTable.getD i (fun _ => false, fun _ => "")).snd m := by
  interval_cases i
  · have hG : isGreeting (pyLower m) = true := hi
    show generate_bot_reply m = greetingReply
    simp [generate_bot_reply, hG]
  · have hG : isGreeting (pyLower m) = false := hprev 0 (by omega)
    have hI : isIdentity (pyLower m) = true := hi
    show generate_bot_reply m = identityReply
    simp [generate_bot_reply, hG, hI]
  · have hG : isGreeting (pyLower m) = false := hprev 0 (by omega)
    have hI : isIdentity (pyLower m) = false := hprev 1 (by omega)
    have hR : isReady (pyLower m) = true := hi
    show generate_bot_reply m = readyReply
    simp [generate_bot_reply, hG, hI, hR]
  · have hG : isGreeting (pyLower m) = false := hprev 0 (by omega)
    have hI : isIdentity (pyLower m) = false := hprev 1 (by omega)
    have hR : isReady (pyLower m) = false := hprev 2 (by omega)
    have hT : isThanks (pyLower m) = true := hi
    show generate_bot_reply m = thanksReply
    simp [generate_bot_reply, hG, hI, hR, hT]
  · have hG : isGreeting (pyLower m) = false := hprev 0 (by omega)
    have hI : isIdentity (pyLower m) = false := hprev 1 (by omega)
    have hR : isReady (pyLower m) = false := hprev 2 (by omega)
    have hT : isThanks (pyLower m) = false := hprev 3 (by omega)
    have hQ : isQuestion (pyLower m) = true := hi
    show generate_bot_reply m = questionReply
    simp [generate_bot_reply, hG, hI, hR, hT, hQ]
  · have hG : isGreeting (pyLower m) = false := hprev 0 (by omega)
    have hI : isIdentity (pyLower m) = false := hprev 1 (by omega)
    have hR : isReady (pyLower m) = false := hprev 2 (by omega)
    have hT : isThanks (pyLower m) = false := hprev 3 (by omega)
    have hQ : isQuestion (pyLower m) = false := hprev 4 (by omega)
    show generate_bot_reply m = echoReply m
    simp [generate_bot_reply, hG, hI, hR, hT, hQ]

/-- C4 (witness): "hello, thanks" matches both the greeting and the gratitude
token sets, and the reply is the fixed greeting reply (rule 0). -/
theorem rule_order_first_match_witness :
    generate_bot_reply "hello, thanks" = "Salom! Qanday yordam bera olaman?" :=
  rule_order_first_match "hello, thanks" 0 (by decide)
    (fun j hj => absurd hj (by omega)) (by decide)

/-- C5: an input matching none of the token sets of rules 1-4 whose
lower-cased form ends in `?` receives the fixed uncertainty reply. -/
theorem question_fallback (m : String)
    (hg : isGreeting (pyLower m) = false) (hid : isIdentity (pyLower m) = false)
    (hr : isReady (pyLower m) = false) (ht : isThanks (pyLower m) = false)
    (hq : isQuestion (pyLower m) = true) :
    generate_bot_reply m = questionReply := by
  simp [generate_bot_reply, hg, hid, hr, ht, hq]

/-- C5 (witness): `reply("Are you there?")` is the fixed uncertainty reply. -/
theorem question_fallback_witness :
    generate_bot_reply "Are you there?" =
      "Bu yaxshi savol — men hali buni o\x27rganmayapman, lekin sinab ko\x27rdim." := by
  have h := question_fallback "Are you there?" (by decide) (by decide) (by decide)
    (by decide) (by decide)
  simpa [questionReply] using h

/-- A session holding one persisted, displayed line, with writable storage. -/
def stC1 : AppState :=
  { display := "You (09:00): hi\n", store := some "You (09:00): hi\n",
    inputVar := "", botEnabled := true, storeErr := none }

/-- C1: contrary to the claim, a confirmed `clear_display` does NOT leave the
backing store byte-for-byte unchanged and does not leave the transcript empty:
its closing `append_system("Display cleared. Chat history file remains
unchanged.")` runs with the default `save=True`, so the SYSTEM notice is
appended to `chat_history.txt` (and to the just-cleared display). -/
theorem clear_display_writes_store :
    (clear_display stC1 true "2025-01-01 10:00:00").store ≠ stC1.store ∧
    (clear_display stC1 true "2025-01-01 10:00:00").display ≠ "" ∧
    (clear_display stC1 true "2025-01-01 10:00:00").store =
      some (("You (09:00): hi\n" ++ system_line "2025-01-01 10:00:00"
        "Display cleared. Chat history file remains unchanged.") ++ "\n") := by
  refine ⟨?_, ?_, ?_⟩ <;> decide

/-- C6: two appends to an initially absent backing store succeed in call
order, and reading the store back yields exactly the lines `[L1, L2]`, for
any newline-free lines. -/
theorem store_append_append_reads_back (L1 L2 : String)
    (h1 : '\n' ∉ L1.data) (h2 : '\n' ∉ L2.data) :
    storeWrite none none L1 = .ok (some (L1 ++ "\n")) ∧
    storeWrite none (some (L1 ++ "\n")) L2 = .ok (some (L1 ++ "\n" ++ L2 ++ "\n")) ∧
    splitLines (L1 ++ "\n" ++ L2 ++ "\n").data = [L1.data, L2.data] := by
  refine ⟨by simp [storeWrite], by simp [storeWrite], ?_⟩
  have hn : ("\n" : String).data = ['\n'] := rfl
  have hd : (L1 ++ "\n" ++ L2 ++ "\n").data =
      L1.data ++ '\n' :: (L2.data ++ '\n' :: []) := by
    simp [String.data_append, hn]
  rw [hd, splitLines_append _ _ h1, splitLines_append _ _ h2]
  rfl

/-- C6 (witness): appending "alpha" then "beta" to a fresh store and reading
it back yields exactly those two lines in order. -/
theorem store_append_append_witness :
    storeWrite none none "alpha" = .ok (some ("alpha" ++ "\n")) ∧
    storeWrite none (some ("alpha" ++ "\n")) "beta" =
      .ok (some ("alpha" ++ "\n" ++ "beta" ++ "\n")) ∧
    splitLines ("alpha" ++ "\n" ++ "beta" ++ "\n").data = ["alpha".data, "beta".data] :=
  store_append_append_reads_back "alpha" "beta" (by decide) (by decide)

/-- C7: neither a load-from-file nor startup seeding re-persists the loaded
content. With writable storage, `load_history` grows the backing store by
exactly the SYSTEM notice line — an addition independent of the imported
content, which itself appears only in the display — and `init_seed` grows the
store by exactly its own SYSTEM notice, never re-writing the seeded data. -/
theorem import_not_persisted (st : AppState) (content base ts s : String)
    (h1 : st.storeErr = none) (h2 : ¬ pyStrip content = "")
    (h3 : st.store = some s) (h4 : ¬ pyStrip s = "") :
    (load_history st content base ts).store =
      some (s ++ system_line ts ("Loaded history from: " ++ base) ++ "\n") ∧
    (load_history st content base ts).display =
      st.display ++ system_line ts ("Loaded history from: " ++ base) ++ "\n"
        ++ pyStrip content ++ "\n" ++ "\n" ∧
    (init_seed st ts).store =
      some (s ++ system_line ts "Loaded previous chat history." ++ "\n") ∧
    (init_seed st ts).display =
      st.display ++ system_line ts "Loaded previous chat history." ++ "\n"
        ++ pyStrip s ++ "\n" ++ "\n" := by
  refine ⟨?_, ?_, ?_, ?_⟩ <;>
    simp [load_history, init_seed, append_system, append_text, storeWrite,
      h1, h2, h3, h4, String.append_assoc]

/-- A session with one stored line, writable storage, and an empty display. -/
def stC7 : AppState :=
  { display := "", store := some "old line\n",
    inputVar := "", botEnabled := true, storeErr := none }

/-- C7 (witness): importing a two-line file adds only the SYSTEM notice to the
store, and seeding re-persists nothing but its own notice. -/
theorem import_not_persisted_witness :
    (load_history stC7 "imported one\nimported two" "h.txt" "10:00").store =
      some ("old line\n" ++ system_line "10:00" ("Loaded history from: " ++ "h.txt") ++ "\n") ∧
    (load_history stC7 "imported one\nimported two" "h.txt" "10:00").display =
      stC7.display ++ system_line "10:00" ("Loaded history from: " ++ "h.txt") ++ "\n"
        ++ pyStrip "imported one\nimported two" ++ "\n" ++ "\n" ∧
    (init_seed stC7 "10:00").store =
      some ("old line\n" ++ system_line "10:00" "Loaded previous chat history." ++ "\n") ∧
    (init_seed stC7 "10:00").display =
      stC7.display ++ system_line "10:00" "Loaded previous chat history." ++ "\n"
        ++ pyStrip "old line\n" ++ "\n" ++ "\n" :=
  import_not_persisted stC7 "imported one\nimported two" "h.txt" "10:00" "old line\n"
    (by decide) (by decide) (by decide) (by decide)

/-- C8: when the append-mode write raises, `append_text` catches the
exception and returns normally: the store is left unchanged, the text is
still displayed, nothing already displayed is lost, and the failure surfaces
as an inline `[Save error: e]` notice in the same display stream. -/
theorem append_failure_contained (st : AppState) (text e : String) (tag : Option String)
    (h : st.storeErr = some e) :
    (append_text st text tag true).store = st.store ∧
    (append_text st text tag true).display =
      st.display ++ text ++ "\n" ++ "[Save error: " ++ e ++ "]\n" := by
  constructor <;> simp [append_text, storeWrite, h, String.append_assoc]

/-- A session whose backing store raises "disk full" on writes. -/
def stC8 : AppState :=
  { display := "old\n", store := some "old\n",
    inputVar := "", botEnabled := true, storeErr := some "disk full" }

/-- C8 (witness): a failing persisted append keeps the store, keeps the
display content from before, and shows the inline save-error notice. -/
theorem append_failure_contained_witness :
    (append_text stC8 "You (10:00): hi" (some "user") true).store = stC8.store ∧
    (append_text stC8 "You (10:00): hi" (some "user") true).display =
      stC8.display ++ "You (10:00): hi" ++ "\n" ++ "[Save error: " ++ "disk full" ++ "]\n" :=
  append_failure_contained stC8 "You (10:00): hi" "disk full" (some "user") (by decide)

/-- A live session with the bot enabled, "hello" typed, writable storage. -/
def stC9 : AppState :=
  { display := "", store := some "", inputVar := "hello",
    botEnabled := true, storeErr := none }

/-- C9 (counterexample): the lambda scheduled via `root.after` performs no
liveness or cleared-display check. Concretely: `on_send` schedules a bot
line; the display is then cleared; firing the deferred callback still changes
the session (the bot line is appended and persisted), so the deferred append
is not skipped. -/
theorem deferred_fire_not_skipped :
    (on_send stC9 "09:00").2 = some "Bot (09:00): Salom! Qanday yordam bera olaman?" ∧
    fire_deferred (clear_display (on_send stC9 "09:00").1 true "2025-01-01 09:01:00")
        "Bot (09:00): Salom! Qanday yordam bera olaman?"
      ≠ clear_display (on_send stC9 "09:00").1 true "2025-01-01 09:01:00" := by
  constructor <;> decide

/-- C9 (amended): the deferred callback checks nothing before appending: on
any session whose display was just cleared (storage writable), firing the
pending bot line appends it to the cleared display and persists it to the
store — the append is total (no crash) but never skipped. -/
theorem deferred_fire_after_clear (st : AppState) (ts2 bl : String)
    (h : st.storeErr = none) :
    (fire_deferred (clear_display st true ts2) bl).display
      = (clear_display st true ts2).display ++ bl ++ "\n" ∧
    (fire_deferred (clear_display st true ts2) bl).store
      = some ((clear_display st true ts2).store.getD "" ++ bl ++ "\n") := by
  constructor <;>
    simp [fire_deferred, clear_display, append_system, append_text, storeWrite,
      h, String.append_assoc]

/-- C9 (witness): firing a pending bot line on a concrete just-cleared
session appends it to the display and the store. -/
theorem deferred_fire_after_clear_witness :
    (fire_deferred (clear_display stC1 true "10:05") "Bot (10:04): Marhamat!").display
      = (clear_display stC1 true "10:05").display ++ "Bot (10:04): Marhamat!" ++ "\n" ∧
    (fire_deferred (clear_display stC1 true "10:05") "Bot (10:04): Marhamat!").store
      = some ((clear_display stC1 true "10:05").store.getD ""
          ++ "Bot (10:04): Marhamat!" ++ "\n") :=
  deferred_fire_after_clear stC1 "10:05" "Bot (10:04): Marhamat!" (by decide)

/-- C10: `on_send` captures one timestamp `ts` and builds both lines from it:
the user line appended immediately and the deferred bot line both embed the
same send-time `ts` — the bot line is fully formatted before the delay, and
`fire_deferred` takes no clock at all. -/
theorem bot_line_shares_send_timestamp (st : AppState) (ts : String)
    (h1 : ¬ pyStrip st.inputVar = "") (h2 : st.botEnabled = true)
    (h3 : st.storeErr = none) :
    (on_send st ts).2 =
      some ("Bot (" ++ ts ++ "): " ++ generate_bot_reply (pyStrip st.inputVar)) ∧
    (on_send st ts).1.display =
      st.display ++ "You (" ++ ts ++ "): " ++ pyStrip st.inputVar ++ "\n" := by
  constructor <;> simp [on_send, append_text, storeWrite, h1, h2, h3, String.append_assoc]

/-- A live session with the bot enabled and " hi " typed. -/
def stC10 : AppState :=
  { display := "", store := some "", inputVar := " hi ",
    botEnabled := true, storeErr := none }

/-- C10 (witness): sending " hi " at 10:30 appends the user line stamped
10:30 and schedules a bot line stamped with the same 10:30. -/
theorem bot_line_shares_send_timestamp_witness :
    (on_send stC10 "10:30").2 =
      some ("Bot (" ++ "10:30" ++ "): " ++ generate_bot_reply (pyStrip stC10.inputVar)) ∧
    (on_send stC10 "10:30").1.display =
      stC10.display ++ "You (" ++ "10:30" ++ "): " ++ pyStrip stC10.inputVar ++ "\n" :=
  bot_line_shares_send_timestamp stC10 "10:30" (by decide) (by decide) (by decide)

end ChatApp
